import Mathlib

/-!
Formal model of the coredhcp PXE plugin (`src/plugins/pxe/pxe.go`).

The plugin inspects an inbound DHCPv4 request, decides whether the client is
a PXE boot client (Vendor Class Identifier, option 60, of length exactly 32
starting with the ASCII bytes of the string made of the characters
P X E C l i e n t; Client Machine Identifier, option 97, of length exactly
17), and if so overwrites three options on the outgoing response: option 60
with the nine-byte class name, option 97 with the request's machine
identifier echoed verbatim, and option 43 with the fixed vendor-specific
payload 06 01 08 FF.

Modelling choices, following the Go source:
  * a DHCPv4 message is reduced to its option table, a map from option code
    to optional payload (Go `dhcpv4.Options` is `map[uint8][]byte`); bytes
    are modelled as natural numbers;
  * the plugin's package-level mutable state (the two template pointers
    `opt60` and `opt43` written by `setup4`) is made explicit as a
    `PluginState` value threaded through the handler;
  * since Go passes `req` and `resp` by pointer, the handler returns the
    request message and the plugin state along with its result, so that
    claims about what the handler does and does not mutate are statements
    about the returned values.
-/

namespace Pxe

/-- A DHCPv4 message, reduced to its option table: a map from option code to
optional payload, mirroring Go `dhcpv4.Options = map[uint8][]byte`.
`none` models an absent option. -/
structure DHCPv4 where
  options : Nat → Option (List Nat)

/-- The nine ASCII bytes of the PXE vendor class name (the characters
P, X, E, C, l, i, e, n, t), the payload of the option 60 template built by
`setup4` via `dhcpv4.OptClassIdentifier`. -/
def pxeClientBytes : List Nat := [80, 88, 69, 67, 108, 105, 101, 110, 116]

/-- Go `strings.HasPrefix`, on byte lists: `s` begins with `p`. -/
def startsWith (s p : List Nat) : Bool := s.take p.length == p

/-- Go `req.ClassIdentifier()`: the payload of option 60, or the empty
string when the option is absent (Go `GetString` returns `""`). -/
def classIdentifier (m : DHCPv4) : List Nat := (m.options 60).getD []

/-- Go `req.GetOneOption(code)`: the payload of the option, or `nil`
(modelled as the empty list) when absent. -/
def getOneOption (m : DHCPv4) (code : Nat) : List Nat := (m.options code).getD []

/-- The PXE classifier, inline at pxe.go line 182 (spec section 4.2 names it
`isPXEClient`): the class identifier has length exactly 32 and begins with
the PXE class-name bytes. -/
def isPXEClient (m : DHCPv4) : Bool :=
  (classIdentifier m).length == 32 && startsWith (classIdentifier m) pxeClientBytes

/-- The plugin's package-level state: the payloads of the two precomputed
option templates (`opt60`, `opt43` in pxe.go), written by `setup4`. -/
structure PluginState where
  opt60 : List Nat
  opt43 : List Nat
deriving DecidableEq

/-- Go `pxe_opt6 := []byte{6, 1, 8}`: the PXE_DISCOVERY_CONTROL
sub-option, code 6, length 1, value 8. -/
def pxe_opt6 : List Nat := [6, 1, 8]

/-- Go `pxe_opt255 := []byte{255}`: the PXE_END terminator sub-option. -/
def pxe_opt255 : List Nat := [255]

/-- The plugin state after `setup4` has run: option 60 template holding the
class-name bytes, option 43 template holding the concatenation of the
discovery-control sub-option and the terminator. -/
def readyState : PluginState := ⟨pxeClientBytes, pxe_opt6 ++ pxe_opt255⟩

/-- Go `setup4(args ...string) (handler.Handler4, error)`: builds the two
templates from constants and returns the handler with a `nil` error. The
returned handler is `pxeHandler4` reading `readyState`, so the model returns
the built state; the error channel is the `Except` layer. -/
def setup4 (args : List String) : Except String PluginState := Except.ok readyState

/-- Go `Options.Update` / `UpdateOption`: set option `code` to payload `v`,
replacing any existing payload for that code (map update-in-place). -/
def updateOption (o : Nat → Option (List Nat)) (code : Nat) (v : List Nat) :
    Nat → Option (List Nat) :=
  fun c => if c = code then some v else o c

/-- Go `pxeHandler4(req, resp) (*dhcpv4.DHCPv4, bool)`, pxe.go lines
180-199, with the package state and the request made explicit. Returns
`((response, stop), state, request)`:
  * if the request is not PXE-classed, or its option 97 payload does not
    have length 17, the response is returned untouched;
  * otherwise options 60, 97 and 43 of the response are set to the opt60
    template, the request's option 97 payload, and the opt43 template;
  * the Go function body contains no assignment through the `req` pointer
    and no assignment to the package-level templates, so state and request
    are returned as received;
  * the boolean is the value the Go code returns in every branch: `false`. -/
def pxeHandler4 (st : PluginState) (req resp : DHCPv4) :
    (DHCPv4 × Bool) × PluginState × DHCPv4 :=
  if !(isPXEClient req) then ((resp, false), st, req)
  else
    let cmi := getOneOption req 97
    if cmi.length != 17 then ((resp, false), st, req)
    else
      ((⟨updateOption (updateOption (updateOption resp.options 60 st.opt60) 97 cmi)
          43 st.opt43⟩, false), st, req)

/-- The response augmentor of spec section 4.4: the same control flow as
`pxeHandler4` (pxe.go lines 182-194), with the boolean carrying the
`matched` outcome (true exactly on the branch that augments the response)
instead of the chain-control flag. -/
def augment (st : PluginState) (req resp : DHCPv4) : DHCPv4 × Bool :=
  if !(isPXEClient req) then (resp, false)
  else
    let cmi := getOneOption req 97
    if cmi.length != 17 then (resp, false)
    else
      (⟨updateOption (updateOption (updateOption resp.options 60 st.opt60) 97 cmi)
          43 st.opt43⟩, true)

/-- Modelled from the spec: the handler-chaining dispatcher (the coredhcp
`handler` package, not under src/) interprets the boolean returned by a
`Handler4` as the instruction to stop the chain; per spec section 4.5 the
chain continues exactly when that flag is not set, so `continueChain` is
its negation. -/
def continueChain (stop : Bool) : Bool := !stop

/-- Run the handler over a whole sequence of request and response pairs,
threading the plugin state, and return the final state. -/
def runAll (st : PluginState) (l : List (DHCPv4 × DHCPv4)) : PluginState :=
  l.foldl (fun s p => (pxeHandler4 s p.1 p.2).2.1) st

/-- Modelled from the spec: the TLV encoder of spec section 4.1. The
repository's source only materialises this encoding for the fixed sub-option
list holding discovery control and the terminator (the byte literals at
pxe.go lines 170-173); the general codec is not under src/. Each entry is
written as code, length, payload; a terminator entry (code 255, empty
payload) is written as the single byte 255. -/
def encodeTLV : List (Nat × List Nat) → List Nat
  | [] => []
  | e :: rest =>
    (if e.1 = 255 ∧ e.2 = [] then [255] else e.1 :: e.2.length :: e.2) ++ encodeTLV rest

/-- Modelled from the spec: the TLV decoder of spec section 4.1, not under
src/. Fails with MalformedTLV when a length byte would read past the end of
the buffer (including when the buffer ends before the length byte itself);
a terminator byte seen before the end of the buffer is not an error and
closes the sequence; no terminator is required. -/
def decodeTLV : List Nat → Except String (List (Nat × List Nat))
  | [] => Except.ok []
  | c :: rest =>
    if c = 255 then Except.ok [(255, [])]
    else
      match rest with
      | [] => Except.error "MalformedTLV"
      | len :: rest2 =>
        if len ≤ rest2.length then
          (decodeTLV (rest2.drop len)).map (fun es => (c, rest2.take len) :: es)
        else Except.error "MalformedTLV"
termination_by b => b.length
decreasing_by simp [List.length_drop]; omega

/-- A sequence of TLV entries is well formed when every payload is at most
255 bytes, every code fits in a byte, and the terminator code 255 appears
only as a final entry with an empty payload (spec section 3: the sub-option
list must be well formed and the terminator closes it). -/
def wfEntries : List (Nat × List Nat) → Bool
  | [] => true
  | (c, p) :: rest =>
    if c = 255 then p.isEmpty && rest.isEmpty
    else decide (c < 255) && decide (p.length ≤ 255) && wfEntries rest

/-- A buffer is truncated when, scanning it as code, length, payload
triples and stopping at a terminator byte, some length byte would read past
the end of the buffer or the buffer ends right before a length byte. This
is the failure condition the spec states for the decoder, written
independently of the decoder's result type. -/
def truncatedTLV : List Nat → Bool
  | [] => false
  | c :: rest =>
    if c = 255 then false
    else
      match rest with
      | [] => true
      | len :: rest2 =>
        if len ≤ rest2.length then truncatedTLV (rest2.drop len) else true
termination_by b => b.length
decreasing_by simp [List.length_drop]; omega

/-! Helper lemmas shared by the claim theorems. -/

/-- The handler is the augmentor with the matched flag replaced by the
constant chain-control flag `false`, the plugin state and the request
returned untouched: all four branches of the Go body agree on these. -/
lemma pxeHandler4_eq_augment (st : PluginState) (req resp : DHCPv4) :
    pxeHandler4 st req resp = (((augment st req resp).1, false), st, req) := by
  unfold pxeHandler4 augment
  by_cases h : isPXEClient req = true
  · by_cases h17 : (getOneOption req 97).length = 17 <;> simp [h, h17]
  · simp [h]

/-- On a request that is not PXE-classed, or whose option 97 payload does
not have length 17, the augmentor returns the response untouched. -/
lemma augment_not_matched (st : PluginState) (req resp : DHCPv4)
    (h : isPXEClient req = false ∨ (getOneOption req 97).length ≠ 17) :
    augment st req resp = (resp, false) := by
  unfold augment
  rcases h with h | h
  · simp [h]
  · by_cases hp : isPXEClient req = true <;> simp [hp, h]

/-- On a matching request the augmentor overwrites options 60, 97 and 43 of
the response with the two templates and the echoed machine identifier. -/
lemma augment_matched (st : PluginState) (req resp : DHCPv4)
    (h : isPXEClient req = true) (h17 : (getOneOption req 97).length = 17) :
    augment st req resp =
      (⟨updateOption (updateOption (updateOption resp.options 60 st.opt60) 97
          (getOneOption req 97)) 43 st.opt43⟩, true) := by
  unfold augment
  simp [h, h17]

/-! Claim theorems. -/

/-- C2: the PXE classifier returns true if and only if option 60 is present
with a payload of length exactly 32 that begins with the nine ASCII bytes
of the PXE class name; in every other case, the option being absent
included, it returns false (it is a total function, so it never fails). -/
theorem C2_isPXEClient_iff (m : DHCPv4) :
    isPXEClient m = true ↔
      ∃ v, m.options 60 = some v ∧ v.length = 32 ∧ v.take 9 = pxeClientBytes := by
  cases h : m.options 60 with
  | none => simp [isPXEClient, classIdentifier, startsWith, h]
  | some v => simp [isPXEClient, classIdentifier, startsWith, h, pxeClientBytes]

/-- C6: for every plugin state, request and response, the per-request
handler signals that the handler chain continues (the Go code returns the
stop flag `false` in every branch, and the chain continues exactly when the
stop flag is not set). -/
theorem C6_always_continueChain (st : PluginState) (req resp : DHCPv4) :
    (pxeHandler4 st req resp).1.2 = false ∧
      continueChain (pxeHandler4 st req resp).1.2 = true := by
  rw [pxeHandler4_eq_augment]
  exact ⟨rfl, rfl⟩

/-- C8: setup never fails: for every argument list it returns the ready
state and no error, with the class-identifier template holding the nine
PXE class-name bytes and the vendor-specific-information template holding
the bytes 06 01 08 FF. -/
theorem C8_setup4_total (args : List String) :
    setup4 args = Except.ok readyState ∧
      readyState.opt60 = pxeClientBytes ∧
      readyState.opt43 = [6, 1, 8, 255] := by
  exact ⟨rfl, rfl, rfl⟩

/-- C1: on a request whose option 60 payload is exactly 32 bytes starting
with the nine PXE class-name bytes and whose option 97 payload is exactly
17 bytes of any value, the augmentor reports matched and the response
carries option 60 equal to the nine class-name bytes, option 97 equal to
the request's 17 bytes verbatim, and option 43 equal to 06 01 08 FF; the
handler returns this same augmented response. -/
theorem C1_handler_augments (req resp : DHCPv4) (v60 v97 : List Nat)
    (h60 : req.options 60 = some v60) (hlen : v60.length = 32)
    (hpre : v60.take 9 = pxeClientBytes)
    (h97 : req.options 97 = some v97) (h17 : v97.length = 17) :
    (augment readyState req resp).2 = true ∧
      ((augment readyState req resp).1).options 60 = some pxeClientBytes ∧
      ((augment readyState req resp).1).options 97 = some v97 ∧
      ((augment readyState req resp).1).options 43 = some [6, 1, 8, 255] ∧
      (pxeHandler4 readyState req resp).1.1 = (augment readyState req resp).1 := by
  have hpxe : isPXEClient req = true := by
    simp [isPXEClient, classIdentifier, startsWith, h60, hlen, hpre, pxeClientBytes]
  have hcmi : getOneOption req 97 = v97 := by simp [getOneOption, h97]
  have h17b : (getOneOption req 97).length = 17 := by rw [hcmi]; exact h17
  rw [pxeHandler4_eq_augment, augment_matched _ _ _ hpxe h17b]
  refine ⟨rfl, ?_, ?_, ?_, rfl⟩
  · simp [updateOption, readyState]
  · simp [updateOption, hcmi]
  · simp [updateOption, readyState, pxe_opt6, pxe_opt255]

/-- Witness to C1: a concrete matching request (class identifier padded to
32 bytes, all-zero 17-byte machine identifier) is augmented. -/
theorem C1_handler_augments_witness :
    (augment readyState
        ⟨fun c => if c = 60 then some (pxeClientBytes ++ List.replicate 23 0)
          else if c = 97 then some (List.replicate 17 0) else none⟩
        ⟨fun _ => none⟩).2 = true :=
  (C1_handler_augments
    ⟨fun c => if c = 60 then some (pxeClientBytes ++ List.replicate 23 0)
      else if c = 97 then some (List.replicate 17 0) else none⟩
    ⟨fun _ => none⟩
    (pxeClientBytes ++ List.replicate 23 0) (List.replicate 17 0)
    rfl (by decide) (by decide) rfl (by decide)).1

/-- C3: on a request that fails the preconditions, option 60 absent or not
PXE shaped, or option 97 with payload length other than 17 (absence giving
length 0), the augmentor reports no match and the handler returns the
response untouched; both are total functions, so no per-request error is
raised on malformed input. -/
theorem C3_malformed_unchanged (st : PluginState) (req resp : DHCPv4)
    (h : isPXEClient req = false ∨ (getOneOption req 97).length ≠ 17) :
    augment st req resp = (resp, false) ∧
      pxeHandler4 st req resp = ((resp, false), st, req) := by
  have ha := augment_not_matched st req resp h
  exact ⟨ha, by rw [pxeHandler4_eq_augment, ha]⟩

/-- Witness to C3: the empty request is not augmented. -/
theorem C3_malformed_unchanged_witness :
    augment readyState ⟨fun _ => none⟩ ⟨fun _ => none⟩ = (⟨fun _ => none⟩, false) :=
  (C3_malformed_unchanged readyState ⟨fun _ => none⟩ ⟨fun _ => none⟩
    (Or.inl (by decide))).1

/-- C4: the handler never removes an option from the response (every code
carrying a payload before still carries one after), and every option whose
code is not 60, 43 or 97 keeps its exact payload. -/
theorem C4_response_frame (st : PluginState) (req resp : DHCPv4) :
    (∀ c, c ≠ 60 → c ≠ 43 → c ≠ 97 →
        ((pxeHandler4 st req resp).1.1).options c = resp.options c) ∧
      ∀ c, (resp.options c).isSome = true →
        (((pxeHandler4 st req resp).1.1).options c).isSome = true := by
  rw [pxeHandler4_eq_augment]
  by_cases hp : isPXEClient req = true
  · by_cases h17 : (getOneOption req 97).length = 17
    · rw [augment_matched st req resp hp h17]
      constructor
      · intro c h60 h43 h97
        simp [updateOption, h60, h43, h97]
      · intro c hsome
        by_cases h43 : c = 43
        · simp [updateOption, h43]
        · by_cases h97 : c = 97
          · simp [updateOption, h43, h97]
          · by_cases h60 : c = 60
            · simp [updateOption, h43, h97, h60]
            · simpa [updateOption, h43, h97, h60] using hsome
    · rw [augment_not_matched st req resp (Or.inr h17)]
      exact ⟨fun c _ _ _ => rfl, fun c h => h⟩
  · rw [augment_not_matched st req resp (Or.inl (by simpa using hp))]
    exact ⟨fun c _ _ _ => rfl, fun c h => h⟩

/-- Witness to C4: option 5 of a concrete response survives the handler
with its payload intact. -/
theorem C4_response_frame_witness :
    ((pxeHandler4 readyState ⟨fun _ => none⟩
        ⟨fun c => if c = 5 then some [1, 2] else none⟩).1.1).options 5 =
      (DHCPv4.mk fun c => if c = 5 then some [1, 2] else none).options 5 ∧
      (((pxeHandler4 readyState ⟨fun _ => none⟩
          ⟨fun c => if c = 5 then some [1, 2] else none⟩).1.1).options 5).isSome = true := by
  constructor
  · exact (C4_response_frame readyState ⟨fun _ => none⟩
      ⟨fun c => if c = 5 then some [1, 2] else none⟩).1 5
      (by decide) (by decide) (by decide)
  · exact (C4_response_frame readyState ⟨fun _ => none⟩
      ⟨fun c => if c = 5 then some [1, 2] else none⟩).2 5 (by decide)

/-- C5: the handler is idempotent: running it a second time with the same
request on the response it produced yields the same response, because
options 60, 97 and 43 are replaced wholesale on every application. -/
theorem C5_idempotent (st : PluginState) (req resp : DHCPv4) :
    (pxeHandler4 st req ((pxeHandler4 st req resp).1.1)).1.1 =
      (pxeHandler4 st req resp).1.1 := by
  simp only [pxeHandler4_eq_augment]
  by_cases hp : isPXEClient req = true
  · by_cases h17 : (getOneOption req 97).length = 17
    · rw [augment_matched st req resp hp h17]
      rw [augment_matched st req _ hp h17]
      refine congrArg DHCPv4.mk ?_
      funext c
      by_cases h43 : c = 43 <;> by_cases h97 : c = 97 <;> by_cases h60 : c = 60 <;>
        simp [updateOption, h43, h97, h60]
    · have ha := augment_not_matched st req resp (Or.inr h17)
      have hb := augment_not_matched st req ((augment st req resp).1) (Or.inr h17)
      rw [hb, ha]
  · have ha := augment_not_matched st req resp (Or.inl (by simpa using hp))
    have hb := augment_not_matched st req ((augment st req resp).1)
      (Or.inl (by simpa using hp))
    rw [hb, ha]

/-- The handler never writes the plugin state, so folding it over any
sequence of invocations leaves the state exactly as it started. -/
lemma runAll_fixed (st : PluginState) (l : List (DHCPv4 × DHCPv4)) :
    runAll st l = st := by
  induction l generalizing st with
  | nil => rfl
  | cons p rest ih =>
    have step : runAll st (p :: rest) =
        runAll ((pxeHandler4 st p.1 p.2).2.1) rest := rfl
    rw [step, pxeHandler4_eq_augment]
    exact ih st

/-- C7: the two templates are built once by setup (the ready state holds
the class-name bytes and the bytes 06 01 08 FF) and no sequence of handler
invocations ever changes them; every augmented response receives exactly
the template payloads for options 60 and 43. -/
theorem C7_templates_immutable (req resp : DHCPv4) (l : List (DHCPv4 × DHCPv4)) :
    runAll readyState l = readyState ∧
      (pxeHandler4 readyState req resp).2.1 = readyState ∧
      readyState = ⟨pxeClientBytes, [6, 1, 8, 255]⟩ ∧
      ((augment readyState req resp).2 = true →
        ((augment readyState req resp).1).options 60 = some readyState.opt60 ∧
        ((augment readyState req resp).1).options 43 = some readyState.opt43) := by
  refine ⟨runAll_fixed _ _, by rw [pxeHandler4_eq_augment], rfl, ?_⟩
  intro hm
  by_cases hp : isPXEClient req = true
  · by_cases h17 : (getOneOption req 97).length = 17
    · rw [augment_matched _ _ _ hp h17]
      constructor <;> simp [updateOption]
    · rw [augment_not_matched _ _ _ (Or.inr h17)] at hm
      simp at hm
  · rw [augment_not_matched _ _ _ (Or.inl (by simpa using hp))] at hm
    simp at hm

/-- Witness to C7: a concrete augmented response carries the option 43
template payload. -/
theorem C7_templates_immutable_witness :
    ((augment readyState
        ⟨fun c => if c = 60 then some (pxeClientBytes ++ List.replicate 23 0)
          else if c = 97 then some (List.replicate 17 0) else none⟩
        ⟨fun _ => none⟩).1).options 43 = some readyState.opt43 :=
  ((C7_templates_immutable
      ⟨fun c => if c = 60 then some (pxeClientBytes ++ List.replicate 23 0)
        else if c = 97 then some (List.replicate 17 0) else none⟩
      ⟨fun _ => none⟩ []).2.2.2 (by decide)).2

/-- Decoding the encoding of a well-formed entry sequence returns the
sequence. -/
lemma decodeTLV_encodeTLV (es : List (Nat × List Nat)) (h : wfEntries es = true) :
    decodeTLV (encodeTLV es) = Except.ok es := by
  induction es with
  | nil => simp [encodeTLV, decodeTLV]
  | cons e rest ih =>
    obtain ⟨c, p⟩ := e
    by_cases hc : c = 255
    · subst hc
      unfold wfEntries at h
      rw [if_pos rfl] at h
      simp only [Bool.and_eq_true, List.isEmpty_iff] at h
      obtain ⟨hp, hr⟩ := h
      subst hp; subst hr
      simp [encodeTLV, decodeTLV]
    · unfold wfEntries at h
      rw [if_neg hc] at h
      simp only [Bool.and_eq_true, decide_eq_true_eq] at h
      obtain ⟨⟨hc255, hplen⟩, hwf⟩ := h
      have henc : encodeTLV ((c, p) :: rest) = c :: p.length :: (p ++ encodeTLV rest) := by
        simp [encodeTLV, hc]
      rw [henc, decodeTLV]
      rw [if_neg hc]
      have hle : p.length ≤ (p ++ encodeTLV rest).length := by simp
      rw [if_pos hle, List.take_left, List.drop_left, ih hwf]
      rfl

/-- The decoder fails exactly on the truncated buffers. -/
lemma decodeTLV_error_iff (b : List Nat) :
    decodeTLV b = Except.error "MalformedTLV" ↔ truncatedTLV b = true := by
  induction b using decodeTLV.induct with
  | case1 => simp [decodeTLV, truncatedTLV]
  | case2 rest2 =>
    rw [decodeTLV.eq_def, truncatedTLV.eq_def]
    simp
  | case3 c hc => simp [decodeTLV, truncatedTLV, hc]
  | case4 c hc len rest2 hle ih =>
    simp only [decodeTLV, truncatedTLV]
    rw [if_neg hc, if_neg hc, if_pos hle, if_pos hle, ← ih]
    cases hd : decodeTLV (rest2.drop len) <;> simp [hd, Except.map]
  | case5 c hc len rest2 hle =>
    simp only [decodeTLV, truncatedTLV]
    rw [if_neg hc, if_neg hc, if_neg hle, if_neg hle]
    simp

/-- C9: the TLV codec round-trips: decoding the encoding of any well-formed
entry sequence with payloads of at most 255 bytes returns the sequence;
decoding fails with MalformedTLV exactly on the buffers where a length byte
would read past the end; and the encoder, applied to the discovery-control
sub-option followed by the terminator, produces exactly the option 43 bytes
that setup builds. -/
theorem C9_tlv_codec (es : List (Nat × List Nat)) (h : wfEntries es = true) :
    decodeTLV (encodeTLV es) = Except.ok es ∧
      (∀ b, decodeTLV b = Except.error "MalformedTLV" ↔ truncatedTLV b = true) ∧
      encodeTLV [(6, [8]), (255, [])] = pxe_opt6 ++ pxe_opt255 :=
  ⟨decodeTLV_encodeTLV es h, decodeTLV_error_iff, by decide⟩

/-- Witness to C9: the codec round-trips on the discovery-control and
terminator sub-option list built by setup. -/
theorem C9_tlv_codec_witness :
    decodeTLV (encodeTLV [(6, [8]), (255, [])]) = Except.ok [(6, [8]), (255, [])] :=
  (C9_tlv_codec [(6, [8]), (255, [])] (by decide)).1

/-- C10: the handler only reads the request: the request value it returns
is the one it received, so every option of the request, codes 60 and 97
included, is unchanged after the handler runs, whether or not augmentation
occurred. -/
theorem C10_request_read_only (st : PluginState) (req resp : DHCPv4) :
    (pxeHandler4 st req resp).2.2 = req ∧
      ∀ c, ((pxeHandler4 st req resp).2.2).options c = req.options c := by
  rw [pxeHandler4_eq_augment]
  exact ⟨rfl, fun c => rfl⟩

end Pxe
